import Mathlib

/-!
# Verification of the interview-copilot online orchestrator

A shallow embedding of the online-session core of the repository
(`backend/src/app.py`, `backend/src/online/strategies.py`,
`backend/src/online/streaming_stt.py`) together with proofs about the
spec-level properties of that core.

Conventions of the embedding:
* Python strings become `String`, PCM sample buffers become `List Int`.
* Module-level mutable state becomes explicit state records that the
  embedded operations transform.
* The remote LLM service (`call_grok`) is an abstract oracle parameter.
* Thread loops become fuel-indexed functions or traces of atomic steps;
  each trigger flag has a single consuming thread in the source, so its
  test-and-clear protocol is modelled as a sequential trace of
  set/poll steps.
-/

namespace InterviewCopilot

/-! ## Trigger flags (`app.py`: `_online_triggers`, `_check_trigger`, `trigger_action`) -/

/-- The three named trigger flags held in `_online_triggers`
(`app.py` lines 117-121).  Each field is the `is_set` state of the
corresponding `threading.Event`. -/
structure Triggers where
  checkpoint : Bool
  generate : Bool
  evaluate : Bool
deriving DecidableEq

/-- Embedding of `trigger_action` (`app.py` lines 231-237): on a known action name the
flag is set and `success=True` is returned; on an unknown name the
function returns `success=False` before touching any flag. -/
def trigger_action (action : String) (tr : Triggers) : Bool × Triggers :=
  if action = "checkpoint" then (true, { tr with checkpoint := true })
  else if action = "generate" then (true, { tr with generate := true })
  else if action = "evaluate" then (true, { tr with evaluate := true })
  else (false, tr)

/-- Embedding of `_check_trigger` (`app.py` lines 124-128) acting on one flag:
if the flag is set it is cleared and `True` is returned, otherwise
`False` is returned and the flag is left clear.  The first component is
the returned Bool, the second the new flag state. -/
def check_trigger (flag : Bool) : Bool × Bool :=
  if flag then (true, false) else (false, flag)

/-- One step in the life of a single trigger flag: either the external
caller sets it (`trigger_action`), or its single consuming loop polls it
through `check_trigger`. -/
inductive TriggerOp
  | set
  | poll
deriving DecidableEq

/-- Number of dispatches produced by running a sequence of set/poll
steps against one trigger flag, starting from flag state `b`.  A poll
dispatches exactly when `check_trigger` returns `True`. -/
def dispatches : Bool → List TriggerOp → Nat
  | _, [] => 0
  | _, TriggerOp.set :: ops => dispatches true ops
  | b, TriggerOp.poll :: ops =>
      (if (check_trigger b).1 then 1 else 0) + dispatches (check_trigger b).2 ops

theorem dispatches_of_clear_no_set (ops : List TriggerOp)
    (h : TriggerOp.set ∉ ops) : dispatches false ops = 0 := by
  induction ops with
  | nil => rfl
  | cons op ops ih =>
    cases op with
    | set => exact absurd (List.mem_cons_self _ _) h
    | poll =>
      simp only [dispatches, check_trigger, if_neg (Bool.false_ne_true), ite_false]
      simpa using ih (fun hm => h (List.mem_cons_of_mem _ hm))

theorem dispatches_of_set_no_set (ops : List TriggerOp)
    (h : TriggerOp.set ∉ ops) :
    dispatches true ops = if TriggerOp.poll ∈ ops then 1 else 0 := by
  induction ops with
  | nil => rfl
  | cons op ops ih =>
    cases op with
    | set => exact absurd (List.mem_cons_self _ _) h
    | poll =>
      have hrest : TriggerOp.set ∉ ops := fun hm => h (List.mem_cons_of_mem _ hm)
      simp [dispatches, check_trigger, dispatches_of_clear_no_set ops hrest]

/-! ## Session lifecycle globals (`app.py`: `start_online_session`, `stop_online_session`) -/

/-- The module-level session globals of `app.py`.
`stopEvent = none` models `_online_stop_event is None`;
`stopEvent = some b` models an event object whose `is_set()` is `b`.
`stopRaisedUnobserved` is a ghost flag recording that a stop signal has
been raised (the stop endpoint `set()` the event) and no session thread
has yet observed it at its next `stop_event.is_set()` check. -/
structure OnlineGlobal where
  stopEvent : Option Bool
  stopRaisedUnobserved : Bool
deriving DecidableEq

/-- Parameter list of `strategies.launch_threads`
(`strategies.py` line 364): `if_checkpoint`, `if_generate`,
`if_evaluate`, `report_analysis`. -/
def launch_threads_params : List String :=
  ["if_checkpoint", "if_generate", "if_evaluate", "report_analysis"]

/-- Keyword arguments of the `strategies.launch_threads(...)` call
inside `start_online_session` (`app.py` lines 198-204). -/
def start_call_kwargs : List String :=
  ["if_checkpoint", "if_generate", "if_evaluate", "report_analysis",
    "report_transcript"]

/-- Whether the `launch_threads` call in `start_online_session` raises:
a Python call raises `TypeError` before the callee body runs when it
passes a keyword argument the callee does not declare.  The call passes
`report_transcript`, which `launch_threads` does not accept. -/
def launch_threads_call_raises : Bool :=
  !(start_call_kwargs.all fun k => launch_threads_params.contains k)

/-- Outcome of a start request as seen by the HTTP caller. -/
inductive StartOutcome
  /-- The explicit rejection payload of `app.py` line 186. -/
  | rejected
  /-- The success payload of `app.py` line 207. -/
  | success
  /-- An unhandled `TypeError` escaping the endpoint (HTTP 500). -/
  | typeError
deriving DecidableEq

/-- Embedding of `start_online_session` (`app.py` lines 180-207).  The
guard at line 185 rejects when
`_online_stop_event is not None and not _online_stop_event.is_set()`.
Otherwise the endpoint resets the events queue and the conversation log
(lines 189-195) and calls
`strategies.launch_threads(..., report_transcript=_report_transcript)`
(lines 198-204).  Because `launch_threads` has no `report_transcript`
parameter this call raises `TypeError` before the assignment
`_online_stop_event = ...` executes, so the stop-event global is left
unchanged and the success payload of line 207 is never returned.  Were
the call signature compatible, the assignment would install a fresh
unset stop event and the request would succeed. -/
def start_online_session (g : OnlineGlobal) : StartOutcome × OnlineGlobal :=
  if g.stopEvent = some false then (StartOutcome.rejected, g)
  else if launch_threads_call_raises then (StartOutcome.typeError, g)
  else (StartOutcome.success, { g with stopEvent := some false })

/-- Embedding of `stop_online_session` (`app.py` lines 210-221): with no session it
fails; otherwise it sets the stop event (raising a signal the session
threads have not yet observed) and clears the global reference. -/
def stop_online_session (g : OnlineGlobal) : Bool × OnlineGlobal :=
  match g.stopEvent with
  | none => (false, g)
  | some _ => (true, { stopEvent := none, stopRaisedUnobserved := true })

/-- A session thread observing the raised stop signal at one of its
`stop_event.is_set()` checks (modelled from the loops in
`strategies.launch_threads`). -/
def observe_stop (g : OnlineGlobal) : OnlineGlobal :=
  { g with stopRaisedUnobserved := false }

/-- One HTTP request against the online-session lifecycle endpoints. -/
inductive SessionReq
  | startReq
  | stopReq
deriving DecidableEq

/-- Run a sequence of start/stop requests against the session globals,
collecting the outcome of every start request in order. -/
def run_requests (g : OnlineGlobal) : List SessionReq → List StartOutcome × OnlineGlobal
  | [] => ([], g)
  | SessionReq.startReq :: rs =>
    let r := start_online_session g
    let rest := run_requests r.2 rs
    (r.1 :: rest.1, rest.2)
  | SessionReq.stopReq :: rs => run_requests (stop_online_session g).2 rs

/-! ## Streaming STT sessions (`streaming_stt.py`) -/

/-- The mutable state of a `StreamingSTT` / `SystemAudioSTT` object that
`start()` can touch: the `_running` flag, the number of worker threads
spawned so far, and the audio queue/buffer contents
(`streaming_stt.py` lines 45-49 and 197-202). -/
structure STTState where
  running : Bool
  threads : Nat
  audio_queue : List (List Int)
  audio_buffer : List (List Int)
deriving DecidableEq

/-- Embedding of `StreamingSTT.start` (`streaming_stt.py` lines 51-56): returns at
once when `_running` is already true; otherwise sets `_running` and
spawns one worker thread. -/
def StreamingSTT_start (s : STTState) : STTState :=
  if s.running then s
  else { s with running := true, threads := s.threads + 1 }

/-- Embedding of `SystemAudioSTT.start` (`streaming_stt.py` lines 208-216): returns
at once when `_running` is already true; when `is_available()` is false
it prints and returns; otherwise sets `_running` and spawns one worker
thread. -/
def SystemAudioSTT_start (available : Bool) (s : STTState) : STTState :=
  if s.running then s
  else if !available then s
  else { s with running := true, threads := s.threads + 1 }

/-! ## Conversation log appends (`strategies.py`: `transcription_loop`) -/

/-- The guard `txt and len(txt.strip()) > 0` of `transcription_loop`:
the text strips to something non-empty, i.e. it contains at least one
non-whitespace character. -/
def nonBlank (s : String) : Bool :=
  s.data.any fun c => !c.isWhitespace

/-- One pass of the log-mutation section of `transcription_loop`
(`strategies.py` lines 426-435): under `log_lock`, for each of the two
transcribed texts, when the text is present and non-blank after
stripping, the line `"<Role>: <text>"` is concatenated to
`conversation_log` behind a `"\n"` separator; interviewer first, then
candidate. -/
def transcription_step (log : String) (txt_int txt_cand : Option String) : String :=
  let log1 :=
    match txt_int with
    | some s => if nonBlank s then log ++ "\n" ++ ("Interviewer: " ++ s) else log
    | none => log
  match txt_cand with
  | some s => if nonBlank s then log1 ++ "\n" ++ ("Candidate: " ++ s) else log1
  | none => log1

/-- Spec-shaped description of what one `transcription_step` pass adds
to the log: zero, one or two fragments, each of the exact form
`"\n" ++ "<Role>: " ++ text`, with no timestamp. -/
def appended_lines (txt_int txt_cand : Option String) : String :=
  (match txt_int with
   | some s => if nonBlank s then "\n" ++ ("Interviewer: " ++ s) else ""
   | none => "") ++
  (match txt_cand with
   | some s => if nonBlank s then "\n" ++ ("Candidate: " ++ s) else ""
   | none => "")

/-! ## Transcript events (`streaming_stt.py` callbacks, `app.py`: `_report_transcript`) -/

/-- A transcript event as delivered to the `on_transcript` callback:
speaker label, recognized text, and the `is_final` flag
(`streaming_stt.py` `_receive_transcripts`). -/
structure TranscriptEvent where
  speaker : String
  text : String
  is_final : Bool
deriving DecidableEq

/-- The state `_report_transcript` can touch: the SSE events queue
`_online_events_queue` and the shared `conversation_log`. -/
structure EventsState where
  events : List TranscriptEvent
  conversation_log : String
deriving DecidableEq

/-- Embedding of `_report_transcript` (`app.py` lines 141-149): puts a transcript
message carrying speaker, text and `is_final` onto the events queue.
It performs no other mutation; in particular it never touches
`conversation_log`. -/
def report_transcript (st : EventsState) (speaker text : String) (is_final : Bool) :
    EventsState :=
  { st with events := st.events ++ [⟨speaker, text, is_final⟩] }

/-- Delivery of a sequence of transcript events to the transcript
callback, in arrival order. -/
def deliver_events (st : EventsState) : List TranscriptEvent → EventsState
  | [] => st
  | e :: es => deliver_events (report_transcript st e.speaker e.text e.is_final) es

/-! ## Audio capture queue (`streaming_stt.py`: `__init__` line 48, `_capture_audio`) -/

/-- The transport buffer between the capture callback and the sender:
the contents of `self._audio_queue` (created as `queue.Queue()`, i.e.
with no `maxsize`) plus a count of dropped-frame warnings logged so
far. -/
structure AudioQueueState where
  buffer : List (List Int)
  warnings : Nat
deriving DecidableEq

/-- The enqueue performed by the `_capture_audio` callback
(`streaming_stt.py` lines 128-137): `self._audio_queue.put(chunk)` on
an unbounded `queue.Queue` — the frame is appended at the tail,
nothing is dropped, and no warning is logged. -/
def capture_enqueue (st : AudioQueueState) (frame : List Int) : AudioQueueState :=
  { st with buffer := st.buffer ++ [frame] }

/-- A burst of capture-callback enqueues with no intervening consumer
dequeues. -/
def enqueue_all (st : AudioQueueState) : List (List Int) → AudioQueueState
  | [] => st
  | f :: fs => enqueue_all (capture_enqueue st f) fs

/-! ## Dispatcher poll loop (`strategies.py`: `ui_monitor_loop`) -/

/-- The observable actions the dispatcher poll loop could take:
spawning an analysis worker, stopping the dual-channel coordinator, or
writing a checkpoint of the conversation log. -/
inductive LoopAct
  | spawnGenerate
  | spawnEvaluate
  | stopCoordinator
  | checkpointWrite
deriving DecidableEq

/-- Embedding of `ui_monitor_loop` (`strategies.py` lines 448-476), fuel-indexed.
`stop t`, `gen t`, `ev t` give the values observed at iteration `t` for
`stop_event.is_set()`, `if_generate()` and `if_evaluate()`.  Each
iteration first checks the stop signal; while running it spawns a
worker for each trigger observed true.  The loop body contains no code
after the `while`, so on observing the stop signal the loop returns at
once.  Result: the list of actions taken, and whether the loop
terminated by observing the stop signal (`false` = fuel ran out with
the loop still running). -/
def ui_monitor_loop : Nat → (Nat → Bool) → (Nat → Bool) → (Nat → Bool) → Nat →
    List LoopAct × Bool
  | 0, _, _, _, _ => ([], false)
  | fuel + 1, stop, gen, ev, t =>
    if stop t then ([], true)
    else
      let acts := (if gen t then [LoopAct.spawnGenerate] else []) ++
        (if ev t then [LoopAct.spawnEvaluate] else [])
      let rest := ui_monitor_loop fuel stop gen ev (t + 1)
      (acts ++ rest.1, rest.2)

/-! ## Analysis worker (`strategies.py`: `analysis_worker`, `bait`, `hint`, `evaluate_interview`) -/

/-- Which of the three fixed system prompts a `call_grok` call uses:
the deception-probing prompt of `bait`, the technical-follow-up prompt
of `hint`, or the holistic-evaluation prompt of `evaluate_interview`. -/
inductive GrokPrompt
  | baitPrompt
  | hintPrompt
  | evalPrompt
deriving DecidableEq

/-- The remote reasoning service as an abstract oracle: given the fixed
system prompt in use and the user prompt, it returns the raw result
string. -/
abbrev GrokOracle := GrokPrompt → String → String

/-- The user prompt built by `bait` (`strategies.py` line 286). -/
def bait_user_prompt (log : String) : String :=
  "Transcript:\n" ++ log ++ "\n\nAnalyze for deception and provide a baiting strategy."

/-- The user prompt built by `hint` (`strategies.py` line 305). -/
def hint_user_prompt (log : String) : String :=
  "Transcript:\n" ++ log ++ "\n\nGenerate technical follow-up questions."

/-- The user prompt built by `evaluate_interview` (`strategies.py`
line 327). -/
def evaluate_user_prompt (log : String) : String :=
  "Transcript:\n" ++ log ++ "\n\nAnalyze for signs of faking and evaluate all baiting attempts."

/-- Embedding of `bait(log_snapshot)` (`strategies.py` lines 67-288): one
`call_grok` with the deception-probing system prompt on the snapshot. -/
def bait (grok : GrokOracle) (snapshot : String) : String :=
  grok GrokPrompt.baitPrompt (bait_user_prompt snapshot)

/-- Embedding of `hint(log_snapshot)` (`strategies.py` lines 290-306): one
`call_grok` with the technical-follow-up system prompt on the
snapshot. -/
def hint (grok : GrokOracle) (snapshot : String) : String :=
  grok GrokPrompt.hintPrompt (hint_user_prompt snapshot)

/-- Embedding of `evaluate_interview(log_snapshot)` (`strategies.py` lines 308-328):
one `call_grok` with the holistic-evaluation system prompt on the
snapshot. -/
def evaluate_interview (grok : GrokOracle) (snapshot : String) : String :=
  grok GrokPrompt.evalPrompt (evaluate_user_prompt snapshot)

/-- The observable effects of one `analysis_worker` run: the remote
calls made (in order), the `report_analysis(result, mode)` callback
invocations (in order), and the files written under the session
directory. -/
structure AnalysisEffects where
  grok_calls : List GrokPrompt
  reports : List (String × String)
  files_written : List String
deriving DecidableEq

/-- Embedding of `analysis_worker(snapshot_log, mode)` (`strategies.py` lines
389-412): mode `"generate"` runs `bait` then `hint`, reporting the
results tagged `"bait"` and `"hint"`; mode `"evaluate"` runs
`evaluate_interview`, reporting the result tagged `"evaluate"`.  The
worker body contains no file I/O. -/
def analysis_worker (grok : GrokOracle) (snapshot mode : String) : AnalysisEffects :=
  if mode = "generate" then
    { grok_calls := [GrokPrompt.baitPrompt, GrokPrompt.hintPrompt]
      reports := [(bait grok snapshot, "bait"), (hint grok snapshot, "hint")]
      files_written := [] }
  else if mode = "evaluate" then
    { grok_calls := [GrokPrompt.evalPrompt]
      reports := [(evaluate_interview grok snapshot, "evaluate")]
      files_written := [] }
  else
    { grok_calls := [], reports := [], files_written := [] }

/-! ## System-audio conversion (`streaming_stt.py`: `_stereo_to_mono_resample`) -/

/-- Native sample rate of the STT stream (`streaming_stt.py` line 19). -/
def SAMPLE_RATE : Nat := 16000

/-- Native sample rate of SystemAudioDump output (`streaming_stt.py`
line 25). -/
def SYS_AUDIO_SAMPLE_RATE : Nat := 24000

/-- Python `stereo[::2]`: every other sample of the interleaved stereo buffer
starting at index 0, i.e. the left channel. -/
def everyOther : List Int → List Int
  | [] => []
  | [x] => [x]
  | x :: _ :: rest => x :: everyOther rest

/-- Python `np.linspace(0, n - 1, m).astype(int)`: `m` evenly spaced positions
over the index space `[0, n-1]`, truncated to integers.  (For `m = 1`
numpy yields `[0]`, which the `Nat` division-by-zero convention also
gives.) -/
def linspace_indices (n m : Nat) : List Nat :=
  (List.range m).map (fun j => j * (n - 1) / (m - 1))

/-- Embedding of `_stereo_to_mono_resample` (`streaming_stt.py` lines 259-269):
take the left channel of the interleaved 24kHz stereo buffer, then
select `len * 16000 / 24000` samples at integer-truncated positions
linearly spaced over the index space. -/
def stereo_to_mono_resample (stereo : List Int) : List Int :=
  let mono_24k := everyOther stereo
  let num_samples_16k := mono_24k.length * SAMPLE_RATE / SYS_AUDIO_SAMPLE_RATE
  (linspace_indices mono_24k.length num_samples_16k).map (fun i => mono_24k.getD i 0)

/-! ## Claim C10 -/

/-- Claim C10: for every action name not in
`{checkpoint, generate, evaluate}` the trigger endpoint returns an
unsuccessful result and leaves all three trigger flags unchanged. -/
theorem trigger_action_invalid_rejected (action : String) (tr : Triggers)
    (h1 : action ≠ "checkpoint") (h2 : action ≠ "generate")
    (h3 : action ≠ "evaluate") :
    trigger_action action tr = (false, tr) := by
  simp [trigger_action, h1, h2, h3]

/-- Concrete instance of `trigger_action_invalid_rejected` at the
unknown action name `"foo"`. -/
theorem trigger_action_invalid_rejected_witness :
    trigger_action "foo" ⟨false, true, false⟩ = (false, ⟨false, true, false⟩) :=
  trigger_action_invalid_rejected "foo" ⟨false, true, false⟩
    (by decide) (by decide) (by decide)

/-! ## Claim C7 -/

theorem run_requests_no_session : ∀ (rs : List SessionReq) (gh : Bool),
    (run_requests ⟨none, gh⟩ rs).2.stopEvent = none ∧
    StartOutcome.success ∉ (run_requests ⟨none, gh⟩ rs).1
  | [], gh => by simp [run_requests]
  | SessionReq.startReq :: rs, gh => by
    have hstart : start_online_session ⟨none, gh⟩
        = (StartOutcome.typeError, ⟨none, gh⟩) := rfl
    have ih := run_requests_no_session rs gh
    simpa [run_requests, hstart] using ih
  | SessionReq.stopReq :: rs, gh => by
    have hstop : stop_online_session ⟨none, gh⟩ = (false, ⟨none, gh⟩) := rfl
    have ih := run_requests_no_session rs gh
    simpa [run_requests, hstop] using ih

/-- Claim C7 (code bug): the session lifecycle the claim describes
never comes into being.  From the boot state
(`_online_stop_event = None`), the very first start request already
ends in the unhandled `TypeError` raised by the
`launch_threads(..., report_transcript=...)` call, and across any
sequence of start/stop requests the stop-event global stays `None` and
no start request ever returns the success payload — so no session is
ever active, no stop signal is ever raised, and the rejection guard the
claim relies on (`app.py` line 185) is dead code. -/
theorem start_request_never_creates_session (rs : List SessionReq) :
    start_online_session ⟨none, false⟩ = (StartOutcome.typeError, ⟨none, false⟩) ∧
    (run_requests ⟨none, false⟩ rs).2.stopEvent = none ∧
    StartOutcome.success ∉ (run_requests ⟨none, false⟩ rs).1 :=
  ⟨rfl, (run_requests_no_session rs false).1, (run_requests_no_session rs false).2⟩

/-! ## Claim C9 -/

/-- Claim C9: calling `start()` on a `StreamingSTT` (or
`SystemAudioSTT`) whose running flag is already true is a no-op: no
second worker thread is spawned and all session state is left
unchanged. -/
theorem stt_start_idempotent_when_running (s : STTState) (available : Bool)
    (h : s.running = true) :
    StreamingSTT_start s = s ∧ SystemAudioSTT_start available s = s := by
  constructor
  · simp [StreamingSTT_start, h]
  · simp [SystemAudioSTT_start, h]

/-- Concrete instance of `stt_start_idempotent_when_running` on a
running session holding one thread and a queued frame. -/
theorem stt_start_idempotent_when_running_witness :
    StreamingSTT_start ⟨true, 1, [[3]], []⟩ = ⟨true, 1, [[3]], []⟩ ∧
    SystemAudioSTT_start true ⟨true, 1, [[3]], []⟩ = ⟨true, 1, [[3]], []⟩ :=
  stt_start_idempotent_when_running ⟨true, 1, [[3]], []⟩ true rfl

/-! ## Claim C2 -/

/-- Claim C2: for each trigger flag, a run of its (single, sequential)
consumer containing exactly one `set` dispatches exactly once when at
least one poll follows the set, and never more than once however many
polls occur: the first poll that observes the flag true clears it, and
every later poll observes false. -/
theorem trigger_single_set_single_dispatch (pre post : List TriggerOp)
    (hpre : TriggerOp.set ∉ pre) (hpost : TriggerOp.set ∉ post) :
    dispatches false (pre ++ TriggerOp.set :: post)
      = if TriggerOp.poll ∈ post then 1 else 0 := by
  induction pre with
  | nil => simpa [dispatches] using dispatches_of_set_no_set post hpost
  | cons op pre ih =>
    cases op with
    | set => exact absurd (List.mem_cons_self _ _) hpre
    | poll =>
      have hrest : TriggerOp.set ∉ pre := fun hm => hpre (List.mem_cons_of_mem _ hm)
      simpa [dispatches, check_trigger] using ih hrest

/-- Concrete instance of `trigger_single_set_single_dispatch`: an idle
poll, then one set, then three polls — exactly one dispatch. -/
theorem trigger_single_set_single_dispatch_witness :
    dispatches false
        ([TriggerOp.poll] ++ TriggerOp.set ::
          [TriggerOp.poll, TriggerOp.poll, TriggerOp.poll])
      = if TriggerOp.poll ∈ [TriggerOp.poll, TriggerOp.poll, TriggerOp.poll]
        then 1 else 0 :=
  trigger_single_set_single_dispatch [TriggerOp.poll]
    [TriggerOp.poll, TriggerOp.poll, TriggerOp.poll] (by decide) (by decide)

/-! ## Claim C4 -/

/-- Claim C4 (amended): every fragment appended to the conversation log
by the transcription loop has the exact form
`"\n" ++ "<Role>: " ++ text` with role `Interviewer` or `Candidate` —
there is no `"[MM:SS] "` elapsed-time timestamp in an appended line. -/
theorem transcription_append_line_format (log : String)
    (txt_int txt_cand : Option String) :
    transcription_step log txt_int txt_cand = log ++ appended_lines txt_int txt_cand := by
  cases txt_int with
  | none =>
    cases txt_cand with
    | none => simp [transcription_step, appended_lines]
    | some t =>
      cases h : nonBlank t <;>
        simp [transcription_step, appended_lines, h, String.append_assoc]
  | some s =>
    cases txt_cand with
    | none =>
      cases h : nonBlank s <;>
        simp [transcription_step, appended_lines, h, String.append_assoc]
    | some t =>
      cases h : nonBlank s <;>
        cases h' : nonBlank t <;>
          simp [transcription_step, appended_lines, h, h', String.append_assoc]

/-- Counterexample to claim C4 as stated: appending the interviewer
text `"hi"` to an empty log yields the line `"Interviewer: hi"`, whose
first character is `I`, not the `[` that the claimed
`"[MM:SS] <role>: <text>"` form requires. -/
theorem transcription_no_timestamp_counterexample :
    transcription_step "" (some "hi") none = "\nInterviewer: hi" ∧
    ("Interviewer: hi").data.head? = some 'I' ∧ 'I' ≠ '[' := by
  decide

/-! ## Claim C1 -/

/-- Claim C1 (amended): delivering any sequence of transcript events to
the transcript callback enqueues them on the events queue in arrival
order with their `is_final` flags preserved, and never mutates the
conversation log — final events included. -/
theorem report_transcript_never_mutates_log (st : EventsState)
    (evs : List TranscriptEvent) :
    (deliver_events st evs).conversation_log = st.conversation_log ∧
    (deliver_events st evs).events = st.events ++ evs := by
  induction evs generalizing st with
  | nil => simp [deliver_events]
  | cons e es ih =>
    cases e with
    | mk sp tx fin =>
      have h := ih (report_transcript st sp tx fin)
      simpa [deliver_events, report_transcript] using h

/-- Counterexample to claim C1 as stated: after delivering one final
transcript event to the transcript callback, the conversation log is
still empty — it does not contain one appended line derived from the
event. -/
theorem final_event_not_appended_counterexample :
    (report_transcript ⟨[], ""⟩ "Interviewer" "hi" true).conversation_log = "" ∧
    (report_transcript ⟨[], ""⟩ "Interviewer" "hi" true).events
      = [⟨"Interviewer", "hi", true⟩] := by
  decide

/-! ## Claim C3 -/

/-- Claim C3 (amended): the transport buffer is an unbounded queue —
a burst of capture-callback enqueues with no dequeues retains every
frame in FIFO order (no frame, oldest or otherwise, is ever dropped)
and logs no dropped-frame warning.  The enqueue never blocks in the
sense that it always succeeds, whatever the buffer already holds. -/
theorem capture_enqueue_unbounded_no_drop (st : AudioQueueState)
    (frames : List (List Int)) :
    (enqueue_all st frames).buffer = st.buffer ++ frames ∧
    (enqueue_all st frames).warnings = st.warnings := by
  induction frames generalizing st with
  | nil => simp [enqueue_all]
  | cons f fs ih =>
    have h := ih (capture_enqueue st f)
    simpa [enqueue_all, capture_enqueue] using h

/-- Counterexample to claim C3 as stated, with claimed capacity `N = 2`:
after a third frame is enqueued on a buffer already holding two, no
dropped-frame warning is logged (the claim requires exactly one) and
the oldest frame `[0]` is still in the buffer (the claim requires it
dropped). -/
theorem capture_overflow_counterexample :
    (enqueue_all ⟨[], 0⟩ [[0], [1], [2]]).warnings ≠ 1 ∧
    [0] ∈ (enqueue_all ⟨[], 0⟩ [[0], [1], [2]]).buffer := by
  decide

/-! ## Claim C6 -/

/-- Claim C6 (amended): when the dispatcher poll loop observes the stop
signal it terminates immediately and takes no further action — in
particular it does not stop the dual-channel coordinator and performs
no final checkpoint write. -/
theorem ui_monitor_stop_terminates_without_finalizer
    (fuel : Nat) (stop gen ev : Nat → Bool) (t : Nat) (h : stop t = true) :
    ui_monitor_loop (fuel + 1) stop gen ev t = ([], true) := by
  simp [ui_monitor_loop, h]

/-- Concrete instance of `ui_monitor_stop_terminates_without_finalizer`
with the stop signal raised at every iteration. -/
theorem ui_monitor_stop_terminates_without_finalizer_witness :
    ui_monitor_loop 1 (fun _ => true) (fun _ => false) (fun _ => false) 0
      = ([], true) :=
  ui_monitor_stop_terminates_without_finalizer 0
    (fun _ => true) (fun _ => false) (fun _ => false) 0 rfl

/-- Counterexample to claim C6 as stated: a loop run that observes the
stop signal performs neither a coordinator stop nor a final checkpoint
write, although the claim requires both. -/
theorem ui_monitor_no_final_checkpoint_counterexample :
    LoopAct.checkpointWrite ∉
      (ui_monitor_loop 5 (fun _ => true) (fun _ => true) (fun _ => true) 0).1 ∧
    LoopAct.stopCoordinator ∉
      (ui_monitor_loop 5 (fun _ => true) (fun _ => true) (fun _ => true) 0).1 ∧
    (ui_monitor_loop 5 (fun _ => true) (fun _ => true) (fun _ => true) 0).2 = true := by
  decide

/-! ## Claim C5 -/

/-- Claim C5 (amended): a fired analysis task with mode `generate`
makes exactly two remote reasoning calls — the deception-probing
prompt, then the technical-follow-up prompt — and reports their results
via the callback tagged `"bait"` and `"hint"` in that order; with mode
`evaluate` it makes exactly one call reported tagged `"evaluate"`.  No
result is persisted as a file under the session directory by the
analysis task. -/
theorem analysis_worker_calls_and_reports (grok : GrokOracle) (snapshot : String) :
    (analysis_worker grok snapshot "generate").grok_calls
        = [GrokPrompt.baitPrompt, GrokPrompt.hintPrompt] ∧
    (analysis_worker grok snapshot "generate").reports
        = [(bait grok snapshot, "bait"), (hint grok snapshot, "hint")] ∧
    (analysis_worker grok snapshot "generate").files_written = [] ∧
    (analysis_worker grok snapshot "evaluate").grok_calls = [GrokPrompt.evalPrompt] ∧
    (analysis_worker grok snapshot "evaluate").reports
        = [(evaluate_interview grok snapshot, "evaluate")] ∧
    (analysis_worker grok snapshot "evaluate").files_written = [] :=
  ⟨rfl, rfl, rfl, rfl, rfl, rfl⟩

/-- Counterexample to claim C5 as stated: a concrete `generate` run
reports two tagged results but writes no file at all, although the
claim requires each raw result persisted under the session
directory. -/
theorem analysis_worker_no_persistence_counterexample :
    (analysis_worker (fun _ _ => "r") "log" "generate").reports.length = 2 ∧
    (analysis_worker (fun _ _ => "r") "log" "generate").files_written = [] := by
  decide

/-! ## Claim C8 -/

theorem everyOther_getD : ∀ (xs : List Int) (i : Nat),
    i < (everyOther xs).length → (everyOther xs).getD i 0 = xs.getD (2 * i) 0
  | [], i, h => by simp [everyOther] at h
  | [x], i, h => by
    have hi : i = 0 := by simpa [everyOther, Nat.lt_one_iff] using h
    subst hi
    rfl
  | x :: y :: rest, 0, _ => by simp [everyOther]
  | x :: y :: rest, i + 1, h => by
    have h' : i < (everyOther rest).length := by
      simpa [everyOther] using Nat.lt_of_succ_lt_succ h
    have ih := everyOther_getD rest i h'
    have htwo : 2 * (i + 1) = 2 * i + 2 := by ring
    simpa [everyOther, htwo, List.getD_cons_succ] using ih

theorem getD_map_range (f : Nat → Int) (m j : Nat) (h : j < m) :
    ((List.range m).map f).getD j 0 = f j := by
  rw [List.getD_eq_getElem _ _ (by simpa using h)]
  simp

/-- Claim C8: the system-audio conversion downs the 24kHz stereo input
to mono by taking one channel — output sample `j` is the left-channel
sample `stereo[2 * idx]` — and resamples to 16kHz by selecting the
integer-truncated index `idx = j * (n-1) / (m-1)` obtained by linear
interpolation over the sample index space, producing
`m = n * 16000 / 24000` samples from `n` mono samples. -/
theorem stereo_to_mono_resample_left_channel_linear_index
    (stereo : List Int) (j : Nat)
    (h : j < (everyOther stereo).length * SAMPLE_RATE / SYS_AUDIO_SAMPLE_RATE) :
    (stereo_to_mono_resample stereo).length
        = (everyOther stereo).length * SAMPLE_RATE / SYS_AUDIO_SAMPLE_RATE ∧
    (stereo_to_mono_resample stereo).getD j 0
        = stereo.getD (2 * (j * ((everyOther stereo).length - 1)
            / ((everyOther stereo).length * SAMPLE_RATE / SYS_AUDIO_SAMPLE_RATE - 1))) 0 := by
  set n := (everyOther stereo).length with hn_def
  set m := n * SAMPLE_RATE / SYS_AUDIO_SAMPLE_RATE with hm_def
  have hm : 0 < m := Nat.lt_of_le_of_lt (Nat.zero_le j) h
  have hn : 0 < n := by
    rcases Nat.eq_zero_or_pos n with h0 | h0
    · rw [hm_def, h0] at hm
      simp at hm
    · exact h0
  have hidx : j * (n - 1) / (m - 1) < n := by
    rcases Nat.lt_or_ge m 2 with hm2 | hm2
    · have hm1 : m = 1 := by omega
      have hj0 : j = 0 := by omega
      simpa [hj0] using hn
    · have hj : j ≤ m - 1 := Nat.le_sub_one_of_lt h
      have hle : j * (n - 1) / (m - 1) ≤ (m - 1) * (n - 1) / (m - 1) :=
        Nat.div_le_div_right (Nat.mul_le_mul_right _ hj)
      have hcancel : (m - 1) * (n - 1) / (m - 1) = n - 1 :=
        Nat.mul_div_cancel_left _ (by omega)
      omega
  constructor
  · simp [stereo_to_mono_resample, linspace_indices]
  · have hunfold : stereo_to_mono_resample stereo
        = (List.range m).map
            (fun j => (everyOther stereo).getD (j * (n - 1) / (m - 1)) 0) := by
      simp [stereo_to_mono_resample, linspace_indices, List.map_map]
    rw [hunfold,
      getD_map_range (fun j => (everyOther stereo).getD (j * (n - 1) / (m - 1)) 0) m j h,
      everyOther_getD stereo _ hidx]

/-- Concrete instance of
`stereo_to_mono_resample_left_channel_linear_index` on the interleaved
stereo buffer `[10, 11, 20, 21, 30, 31]` (left channel `[10, 20, 30]`)
at output index 0. -/
theorem stereo_to_mono_resample_witness :
    (0 < (everyOther [10, 11, 20, 21, 30, 31]).length * SAMPLE_RATE
        / SYS_AUDIO_SAMPLE_RATE) ∧
    ((stereo_to_mono_resample [10, 11, 20, 21, 30, 31]).length
        = (everyOther [10, 11, 20, 21, 30, 31]).length * SAMPLE_RATE
            / SYS_AUDIO_SAMPLE_RATE ∧
      (stereo_to_mono_resample [10, 11, 20, 21, 30, 31]).getD 0 0
        = ([10, 11, 20, 21, 30, 31] : List Int).getD
            (2 * (0 * ((everyOther [10, 11, 20, 21, 30, 31]).length - 1)
              / ((everyOther [10, 11, 20, 21, 30, 31]).length * SAMPLE_RATE
                  / SYS_AUDIO_SAMPLE_RATE - 1))) 0) :=
  ⟨by decide,
    stereo_to_mono_resample_left_channel_linear_index [10, 11, 20, 21, 30, 31] 0
      (by decide)⟩

end InterviewCopilot
